import Mathlib

/-!
Verification of `player.py`, a UDP replayer for fixed-size detector records.

The Python program is embedded shallowly:
  * the module-level size constants keep their source names;
  * the per-frame payload construction (the two nested `for` loops over
    PMT channels that `extend` a `bytearray`) becomes `buildPayload`;
  * the destination parsing (`split(':')`, `int(...)`, the port-range
    check) becomes `parseDestination`;
  * the `while True` read loop becomes `driverLoop`, recursing on the
    remaining input stream, returning the list of sent datagrams, the
    truncation flag and the verbose stdout log;
  * `main` becomes `runMain`, which combines parsing, the loop, the
    stderr/stdout messages and the process exit code.

Bytes are modelled as `UInt8`, byte strings as `List UInt8`; a Python
slice `b[a : a+n]` becomes `(b.drop a).take n`, which has the same
clamping behaviour.  Console lines are modelled by the inductive
`LogLine` rather than by formatted strings.
-/

-- ==========================================================================
-- Constants from pdmdata.h, as defined at the top of player.py
-- ==========================================================================

def N_OF_PIXELS_PER_PMT : Nat := 64

def N_OF_KI_PER_PMT : Nat := 8

def N_OF_SPARE_PER_PMT : Nat := 8

def N_OF_PMT_PER_ECASIC : Nat := 6

def N_OF_ECASIC_PER_PDM : Nat := 6

def N_OF_PMTS_IN_FRAME : Nat := N_OF_PMT_PER_ECASIC * N_OF_ECASIC_PER_PDM  -- 36

def N_OF_FRAMES_D3_V0 : Nat := 100

/-- Size of the data of one PMT that is sent (only the `data` field): 64 * 4 = 256 bytes. -/
def DATA_ONLY_PER_PMT_SIZE_BYTES : Nat := N_OF_PIXELS_PER_PMT * 4

/-- Size of the full PMT_3rd_L3_GEN structure (the reading stride): (64+8+8) * 4 = 320 bytes. -/
def FULL_PMT_L3_GEN_SIZE_BYTES : Nat :=
  (N_OF_PIXELS_PER_PMT + N_OF_KI_PER_PMT + N_OF_SPARE_PER_PMT) * 4

/-- Size of one FRAME_SPB_2_L3_V0 frame in the source data: 36 * 320 = 11520 bytes. -/
def FRAME_SPB_2_L3_V0_SIZE_BYTES : Nat := N_OF_PMTS_IN_FRAME * FULL_PMT_L3_GEN_SIZE_BYTES

/-- Size of the full Z_DATA_TYPE_SCI_L3_V3 structure read from the file. -/
def Z_DATA_TYPE_SCI_L3_V3_SIZE : Nat := 1152064

/-- Offset of the `frames` array inside Z_DATA_TYPE_SCI_L3_V3. -/
def FRAMES_OFFSET : Nat := 28

-- ==========================================================================
-- Payload construction: the inner double loop of main()
-- ==========================================================================

/-- The body of the `for frame_idx in range(N_OF_FRAMES_D3_V0)` loop that
builds `udp_payload`: starting from an empty `bytearray`, for each
`pmt_idx` in `range(N_OF_PMTS_IN_FRAME)` it appends
`record_data[pmt_start_byte : pmt_start_byte + DATA_ONLY_PER_PMT_SIZE_BYTES]`. -/
def buildPayload (record_data : List UInt8) (frame_idx : Nat) : List UInt8 :=
  let frame_start_byte := FRAMES_OFFSET + frame_idx * FRAME_SPB_2_L3_V0_SIZE_BYTES
  (List.range N_OF_PMTS_IN_FRAME).foldl
    (fun udp_payload pmt_idx =>
      let pmt_start_byte := frame_start_byte + pmt_idx * FULL_PMT_L3_GEN_SIZE_BYTES
      udp_payload ++ ((record_data.drop pmt_start_byte).take DATA_ONLY_PER_PMT_SIZE_BYTES))
    []

-- ==========================================================================
-- Destination parsing: lines 66-73 of main()
-- ==========================================================================

/-- Python `s.split(':')` on a string modelled as a character list. -/
def splitOnColon : List Char → List (List Char)
  | [] => [[]]
  | c :: rest =>
    if c = ':' then [] :: splitOnColon rest
    else
      match splitOnColon rest with
      | [] => [[c]]
      | group :: groups => (c :: group) :: groups

/-- Accumulate the value of a decimal digit string; `none` on a non-digit. -/
def digitsVal : List Char → Nat → Option Nat
  | [], acc => some acc
  | c :: rest, acc =>
    if '0' ≤ c ∧ c ≤ '9' then digitsVal rest (acc * 10 + (c.toNat - '0'.toNat))
    else none

/-- Python `int(s)` restricted to what the port string can meet: optional
surrounding spaces, an optional sign, then a non-empty run of decimal
digits; anything else raises `ValueError`, modelled as `none`. -/
def pyInt : List Char → Option Int
  | cs =>
    let trimmed := ((cs.dropWhile (· = ' ')).reverse.dropWhile (· = ' ')).reverse
    match trimmed with
    | [] => none
    | '-' :: rest =>
      match rest with
      | [] => none
      | _ => (digitsVal rest 0).map (fun n => -(n : Int))
    | '+' :: rest =>
      match rest with
      | [] => none
      | _ => (digitsVal rest 0).map (fun n => (n : Int))
    | rest => (digitsVal rest 0).map (fun n => (n : Int))

/-- Lines 66-73: `ip_addr, port_str = args.destination.split(':')`,
`port = int(port_str)`, and the `0 < port < 65536` check.  Any of the
three failures raises `ValueError`, caught by the surrounding
`try/except`, modelled as `none`. -/
def parseDestination (destination : List Char) : Option (List Char × Nat) :=
  match splitOnColon destination with
  | [ip_addr, port_str] =>
    match pyInt port_str with
    | some port => if 0 < port ∧ port < 65536 then some (ip_addr, port.toNat) else none
    | none => none
  | _ => none

-- ==========================================================================
-- Console output model
-- ==========================================================================

/-- One console line printed by player.py, identified by its format
string rather than by its rendered text. -/
inductive LogLine where
  /-- Line 90: reading data from stdin (verbose only, stdout). -/
  | readingStdin : LogLine
  /-- Line 105: processing record number `recordNum` (verbose only, stdout). -/
  | recordHeader (recordNum : Nat) : LogLine
  /-- Lines 129-133: sent frame `totalSent` (record `recordNum`, frame
  `frameNum`) of `payloadLen` bytes (verbose only, stdout). -/
  | frameSent (totalSent recordNum frameNum payloadLen : Nat) : LogLine
  /-- Line 149: total packets sent (verbose only, stdout). -/
  | finalCount (total : Nat) : LogLine
  /-- Line 100: the input file/stream is truncated (stderr). -/
  | truncationError : LogLine
  /-- Line 72: bad address or port format (stderr). -/
  | addressError : LogLine
  deriving DecidableEq, Repr

-- ==========================================================================
-- The read/send loop: lines 95-136 of main()
-- ==========================================================================

/-- Result of the `while True` loop. -/
structure LoopResult where
  /-- The payloads passed to `sock.sendto`, in send order. -/
  sent : List (List UInt8)
  /-- Whether the loop printed the truncation error before breaking. -/
  truncated : Bool
  /-- Verbose progress lines printed to stdout inside the loop. -/
  stdoutLog : List LogLine
  deriving DecidableEq, Repr

/-- Lines 95-136: read `Z_DATA_TYPE_SCI_L3_V3_SIZE` bytes per iteration;
an empty read breaks cleanly, a short read prints the truncation error
and breaks, a full record sends its 100 frame payloads (each logged when
verbose).  `record_num` and `total_packets_sent` are the two counters of
main(). -/
def driverLoop (verbose : Bool) (stream : List UInt8)
    (record_num total_packets_sent : Nat) : LoopResult :=
  if stream.isEmpty then ⟨[], false, []⟩
  else if stream.length < Z_DATA_TYPE_SCI_L3_V3_SIZE then ⟨[], true, []⟩
  else
    let record_data := stream.take Z_DATA_TYPE_SCI_L3_V3_SIZE
    let packets := (List.range N_OF_FRAMES_D3_V0).map (fun f => buildPayload record_data f)
    let headerLog := if verbose then [LogLine.recordHeader (record_num + 1)] else []
    let frameLog :=
      if verbose then
        (List.range N_OF_FRAMES_D3_V0).map (fun f =>
          LogLine.frameSent (total_packets_sent + f + 1) (record_num + 1) (f + 1)
            (buildPayload record_data f).length)
      else []
    let rest := driverLoop verbose (stream.drop Z_DATA_TYPE_SCI_L3_V3_SIZE)
      (record_num + 1) (total_packets_sent + N_OF_FRAMES_D3_V0)
    ⟨packets ++ rest.sent, rest.truncated, headerLog ++ frameLog ++ rest.stdoutLog⟩
termination_by stream.length
decreasing_by
  simp only [List.length_drop]
  have h1 : ¬ stream.isEmpty := by assumption
  have h2 : ¬ stream.length < Z_DATA_TYPE_SCI_L3_V3_SIZE := by assumption
  simp only [List.isEmpty_iff_length_eq_zero] at h1
  simp only [Z_DATA_TYPE_SCI_L3_V3_SIZE] at h2 ⊢
  omega

-- ==========================================================================
-- main(): argument validation, socket, loop, cleanup, exit status
-- ==========================================================================

/-- Observable outcome of one run of main(). -/
structure RunResult where
  /-- The payloads passed to `sock.sendto`, in send order. -/
  sent : List (List UInt8)
  /-- Lines printed to stdout, in order. -/
  stdoutLog : List LogLine
  /-- Lines printed to stderr, in order. -/
  stderrLog : List LogLine
  /-- The process exit status. -/
  exitCode : Nat
  /-- Whether `socket.socket(...)` was ever reached. -/
  socketCreated : Bool
  deriving DecidableEq, Repr

/-- main() of player.py, for a run whose input stream is already in hand
(so the file-not-found and socket-creation failures do not arise).
If the destination fails to parse, the program prints the address error
and exits 1 before the socket is created and before any file I/O.
Otherwise it runs the loop; both the clean end-of-stream break and the
truncation break fall through to `finally` and return from main()
normally, so the exit status is 0 in both cases.  `pause` only feeds
`time.sleep` and has no observable effect here. -/
def runMain (destination : List Char) (pause : Nat) (verbose : Bool)
    (usingStdin : Bool) (stream : List UInt8) : RunResult :=
  match parseDestination destination with
  | none => ⟨[], [], [LogLine.addressError], 1, false⟩
  | some _ =>
    let startLog := if usingStdin ∧ verbose then [LogLine.readingStdin] else []
    let r := driverLoop verbose stream 0 0
    { sent := r.sent
      stdoutLog := startLog ++ r.stdoutLog ++
        (if verbose then [LogLine.finalCount r.sent.length] else [])
      stderrLog := if r.truncated then [LogLine.truncationError] else []
      exitCode := 0
      socketCreated := true }

-- ==========================================================================
-- Helper lemmas
-- ==========================================================================

/-- A fold that only appends to its accumulator is the flattened map. -/
theorem foldl_append_eq_flatten {α : Type} (g : Nat → List α) :
    ∀ (l : List Nat) (init : List α),
      l.foldl (fun acc i => acc ++ g i) init = init ++ (l.map g).flatten := by
  intro l
  induction l with
  | nil => intro init; simp
  | cons x xs ih =>
    intro init
    simp only [List.foldl_cons, List.map_cons, List.flatten_cons, ih, List.append_assoc]

/-- `buildPayload` as the flattened list of its 36 channel slices. -/
theorem buildPayload_eq_flatten (record_data : List UInt8) (frame_idx : Nat) :
    buildPayload record_data frame_idx =
      ((List.range 36).map (fun c =>
        (record_data.drop (28 + frame_idx * 11520 + c * 320)).take 256)).flatten := by
  simp only [buildPayload, FRAMES_OFFSET, FRAME_SPB_2_L3_V0_SIZE_BYTES,
    FULL_PMT_L3_GEN_SIZE_BYTES, DATA_ONLY_PER_PMT_SIZE_BYTES, N_OF_PMTS_IN_FRAME,
    N_OF_PMT_PER_ECASIC, N_OF_ECASIC_PER_PDM, N_OF_PIXELS_PER_PMT, N_OF_KI_PER_PMT,
    N_OF_SPARE_PER_PMT]
  rw [foldl_append_eq_flatten]
  simp

theorem buildPayload_length (record_data : List UInt8) (frame_idx : Nat)
    (h : Z_DATA_TYPE_SCI_L3_V3_SIZE ≤ record_data.length)
    (hf : frame_idx < N_OF_FRAMES_D3_V0) :
    (buildPayload record_data frame_idx).length = 9216 := by
  simp only [Z_DATA_TYPE_SCI_L3_V3_SIZE] at h
  simp only [N_OF_FRAMES_D3_V0] at hf
  rw [buildPayload_eq_flatten, List.length_flatten, List.map_map]
  have hmap : ((List.range 36).map
      (List.length ∘ fun c => (record_data.drop (28 + frame_idx * 11520 + c * 320)).take 256))
      = List.replicate 36 256 := by
    rw [List.eq_replicate_iff]
    constructor
    · simp
    · intro b hb
      simp only [List.mem_map, List.mem_range, Function.comp_apply] at hb
      obtain ⟨c, hc, rfl⟩ := hb
      simp only [List.length_take, List.length_drop]
      omega
  rw [hmap, List.sum_replicate, smul_eq_mul]

theorem driverLoop_nil (v : Bool) (r t : Nat) :
    driverLoop v [] r t = ⟨[], false, []⟩ := by
  rw [driverLoop]
  simp

theorem driverLoop_short (v : Bool) (s : List UInt8) (r t : Nat)
    (h1 : s ≠ []) (h2 : s.length < Z_DATA_TYPE_SCI_L3_V3_SIZE) :
    driverLoop v s r t = ⟨[], true, []⟩ := by
  have h0 : ¬ s.isEmpty = true := by
    simp only [List.isEmpty_iff]
    exact h1
  rw [driverLoop, if_neg h0, if_pos h2]

theorem driverLoop_step (v : Bool) (s : List UInt8) (r t : Nat)
    (h : Z_DATA_TYPE_SCI_L3_V3_SIZE ≤ s.length) :
    driverLoop v s r t =
      ⟨(List.range N_OF_FRAMES_D3_V0).map
          (fun f => buildPayload (s.take Z_DATA_TYPE_SCI_L3_V3_SIZE) f)
        ++ (driverLoop v (s.drop Z_DATA_TYPE_SCI_L3_V3_SIZE)
              (r + 1) (t + N_OF_FRAMES_D3_V0)).sent,
       (driverLoop v (s.drop Z_DATA_TYPE_SCI_L3_V3_SIZE)
          (r + 1) (t + N_OF_FRAMES_D3_V0)).truncated,
       (if v then [LogLine.recordHeader (r + 1)] else []) ++
       (if v then
          (List.range N_OF_FRAMES_D3_V0).map (fun f =>
            LogLine.frameSent (t + f + 1) (r + 1) (f + 1)
              (buildPayload (s.take Z_DATA_TYPE_SCI_L3_V3_SIZE) f).length)
        else []) ++
       (driverLoop v (s.drop Z_DATA_TYPE_SCI_L3_V3_SIZE)
          (r + 1) (t + N_OF_FRAMES_D3_V0)).stdoutLog⟩ := by
  have hpos : 0 < Z_DATA_TYPE_SCI_L3_V3_SIZE := by
    simp only [Z_DATA_TYPE_SCI_L3_V3_SIZE]
    omega
  have h0 : ¬ s.isEmpty = true := by
    simp only [List.isEmpty_iff_length_eq_zero]
    omega
  have h1 : ¬ s.length < Z_DATA_TYPE_SCI_L3_V3_SIZE := by omega
  rw [driverLoop, if_neg h0, if_neg h1]

/-- The sent datagrams and the truncation flag depend neither on the
verbose flag nor on the two diagnostic counters. -/
theorem driverLoop_data_eq_aux (v v' : Bool) :
    ∀ (n : Nat) (s : List UInt8), s.length ≤ n → ∀ (r t r' t' : Nat),
      (driverLoop v s r t).sent = (driverLoop v' s r' t').sent ∧
      (driverLoop v s r t).truncated = (driverLoop v' s r' t').truncated := by
  intro n
  induction n with
  | zero =>
    intro s hs r t r' t'
    have : s = [] := List.eq_nil_of_length_eq_zero (by omega)
    subst this
    simp [driverLoop_nil]
  | succ n ih =>
    intro s hs r t r' t'
    by_cases hnil : s = []
    · subst hnil; simp [driverLoop_nil]
    · by_cases hshort : s.length < Z_DATA_TYPE_SCI_L3_V3_SIZE
      · rw [driverLoop_short v s r t hnil hshort, driverLoop_short v' s r' t' hnil hshort]
        exact ⟨rfl, rfl⟩
      · have hge : Z_DATA_TYPE_SCI_L3_V3_SIZE ≤ s.length := by omega
        have hlen : (s.drop Z_DATA_TYPE_SCI_L3_V3_SIZE).length ≤ n := by
          simp only [List.length_drop]
          have hpos : 0 < Z_DATA_TYPE_SCI_L3_V3_SIZE := by
            simp only [Z_DATA_TYPE_SCI_L3_V3_SIZE]; omega
          omega
        obtain ⟨hsent, htr⟩ := ih (s.drop Z_DATA_TYPE_SCI_L3_V3_SIZE) hlen
          (r + 1) (t + N_OF_FRAMES_D3_V0) (r' + 1) (t' + N_OF_FRAMES_D3_V0)
        rw [driverLoop_step v s r t hge, driverLoop_step v' s r' t' hge]
        exact ⟨by simp [hsent], htr⟩

theorem driverLoop_data_eq (v v' : Bool) (s : List UInt8) (r t r' t' : Nat) :
    (driverLoop v s r t).sent = (driverLoop v' s r' t').sent ∧
    (driverLoop v s r t).truncated = (driverLoop v' s r' t').truncated :=
  driverLoop_data_eq_aux v v' s.length s (Nat.le_refl _) r t r' t'

/-- Peeling the first record off an `N+1`-record indexed map of slices. -/
theorem map_slice_range_succ {α : Type} (P : List UInt8 → α) (s : List UInt8) (n : Nat) :
    (List.range (n + 1)).map (fun k =>
        P ((s.drop (k * Z_DATA_TYPE_SCI_L3_V3_SIZE)).take Z_DATA_TYPE_SCI_L3_V3_SIZE))
      = P (s.take Z_DATA_TYPE_SCI_L3_V3_SIZE)
        :: (List.range n).map (fun k =>
            P (((s.drop Z_DATA_TYPE_SCI_L3_V3_SIZE).drop
              (k * Z_DATA_TYPE_SCI_L3_V3_SIZE)).take Z_DATA_TYPE_SCI_L3_V3_SIZE)) := by
  rw [List.range_succ_eq_map, List.map_cons, List.map_map]
  refine congrArg₂ List.cons ?_ ?_
  · simp
  · apply List.map_congr_left
    intro k _
    simp only [Function.comp_apply]
    have harith : Nat.succ k * Z_DATA_TYPE_SCI_L3_V3_SIZE
        = Z_DATA_TYPE_SCI_L3_V3_SIZE + k * Z_DATA_TYPE_SCI_L3_V3_SIZE := by
      simp only [Z_DATA_TYPE_SCI_L3_V3_SIZE]
      omega
    rw [List.drop_drop, harith]

/-- On a stream of exactly `N` full records, the loop sends, record by
record and frame by frame, the payloads of each record, and never
reports truncation. -/
theorem driverLoop_full (v : Bool) :
    ∀ (N : Nat) (s : List UInt8) (r t : Nat),
      s.length = N * Z_DATA_TYPE_SCI_L3_V3_SIZE →
      (driverLoop v s r t).sent =
        ((List.range N).map (fun k =>
          (List.range N_OF_FRAMES_D3_V0).map (fun f =>
            buildPayload ((s.drop (k * Z_DATA_TYPE_SCI_L3_V3_SIZE)).take
              Z_DATA_TYPE_SCI_L3_V3_SIZE) f))).flatten ∧
      (driverLoop v s r t).truncated = false := by
  intro N
  induction N with
  | zero =>
    intro s r t h
    have : s = [] := List.eq_nil_of_length_eq_zero (by simpa using h)
    subst this
    simp [driverLoop_nil]
  | succ n ih =>
    intro s r t h
    have hge : Z_DATA_TYPE_SCI_L3_V3_SIZE ≤ s.length := by
      rw [h]
      simp only [Z_DATA_TYPE_SCI_L3_V3_SIZE]
      omega
    have hlen : (s.drop Z_DATA_TYPE_SCI_L3_V3_SIZE).length =
        n * Z_DATA_TYPE_SCI_L3_V3_SIZE := by
      simp only [List.length_drop, h]
      simp only [Z_DATA_TYPE_SCI_L3_V3_SIZE]
      omega
    obtain ⟨hsent, htr⟩ := ih (s.drop Z_DATA_TYPE_SCI_L3_V3_SIZE)
      (r + 1) (t + N_OF_FRAMES_D3_V0) hlen
    rw [driverLoop_step v s r t hge]
    refine ⟨?_, htr⟩
    rw [hsent,
      map_slice_range_succ (fun rec =>
        (List.range N_OF_FRAMES_D3_V0).map (fun f => buildPayload rec f)) s n,
      List.flatten_cons]

/-- Every datagram the loop ever sends has exactly 9216 bytes: each sent
payload comes from a full record, 36 channels of 256 bytes each. -/
theorem driverLoop_sent_length_aux (v : Bool) :
    ∀ (n : Nat) (s : List UInt8), s.length ≤ n → ∀ (r t : Nat) (p : List UInt8),
      p ∈ (driverLoop v s r t).sent → p.length = 9216 := by
  intro n
  induction n with
  | zero =>
    intro s hs r t p hp
    have : s = [] := List.eq_nil_of_length_eq_zero (by omega)
    subst this
    rw [driverLoop_nil] at hp
    simp at hp
  | succ n ih =>
    intro s hs r t p hp
    by_cases hnil : s = []
    · subst hnil
      rw [driverLoop_nil] at hp
      simp at hp
    · by_cases hshort : s.length < Z_DATA_TYPE_SCI_L3_V3_SIZE
      · rw [driverLoop_short v s r t hnil hshort] at hp
        simp at hp
      · have hge : Z_DATA_TYPE_SCI_L3_V3_SIZE ≤ s.length := by omega
        rw [driverLoop_step v s r t hge] at hp
        simp only [List.mem_append] at hp
        rcases hp with hp | hp
        · simp only [List.mem_map, List.mem_range] at hp
          obtain ⟨f, hf, rfl⟩ := hp
          apply buildPayload_length
          · rw [List.length_take]
            omega
          · exact hf
        · have hlen : (s.drop Z_DATA_TYPE_SCI_L3_V3_SIZE).length ≤ n := by
            simp only [List.length_drop]
            have hpos : 0 < Z_DATA_TYPE_SCI_L3_V3_SIZE := by
              simp only [Z_DATA_TYPE_SCI_L3_V3_SIZE]; omega
            have hne : 0 < s.length := List.length_pos_of_ne_nil hnil
            omega
          exact ih (s.drop Z_DATA_TYPE_SCI_L3_V3_SIZE) hlen _ _ p hp

-- ==========================================================================
-- Concrete inputs used to instantiate the theorems
-- ==========================================================================

/-- The valid destination string "127.0.0.1:9090". -/
def testDestination : List Char :=
  ['1', '2', '7', '.', '0', '.', '0', '.', '1', ':', '9', '0', '9', '0']

/-- The invalid destination string "bad" (no colon). -/
def badDest : List Char := ['b', 'a', 'd']

/-- The invalid destination string "1.2.3.4:0" (port not strictly positive). -/
def zeroPortDest : List Char := ['1', '.', '2', '.', '3', '.', '4', ':', '0']

/-- The invalid destination string "1.2.3.4:99999" (port out of range). -/
def bigPortDest : List Char :=
  ['1', '.', '2', '.', '3', '.', '4', ':', '9', '9', '9', '9', '9']

theorem parseDestination_testDestination :
    parseDestination testDestination
      = some (['1', '2', '7', '.', '0', '.', '0', '.', '1'], 9090) := by
  decide

-- ==========================================================================
-- Claims
-- ==========================================================================

/-- C1: for every record buffer of exactly RECORD_BYTES (1,152,064) bytes
and every frame index f in 0..99, the UDP payload built and sent for
frame f equals the concatenation, in ascending channel index c = 0..35,
of the record's bytes in [FRAMES_OFFSET + f*11520 + c*320,
FRAMES_OFFSET + f*11520 + c*320 + 256), and its total length is 9216
bytes. -/
theorem c1_payload_bytes (record_data : List UInt8) (frame_idx : Nat)
    (h : record_data.length = Z_DATA_TYPE_SCI_L3_V3_SIZE)
    (hf : frame_idx < 100) :
    buildPayload record_data frame_idx =
      ((List.range 36).map (fun c =>
        (record_data.drop (28 + frame_idx * 11520 + c * 320)).take 256)).flatten ∧
    (buildPayload record_data frame_idx).length = 9216 := by
  refine ⟨buildPayload_eq_flatten record_data frame_idx, ?_⟩
  apply buildPayload_length
  · omega
  · simpa [N_OF_FRAMES_D3_V0] using hf

theorem c1_payload_bytes_witness :
    (List.replicate Z_DATA_TYPE_SCI_L3_V3_SIZE (0 : UInt8)).length
      = Z_DATA_TYPE_SCI_L3_V3_SIZE ∧ (0 : Nat) < 100 ∧
    (buildPayload (List.replicate Z_DATA_TYPE_SCI_L3_V3_SIZE (0 : UInt8)) 0).length
      = 9216 :=
  ⟨by simp, by omega,
   (c1_payload_bytes (List.replicate Z_DATA_TYPE_SCI_L3_V3_SIZE (0 : UInt8)) 0
     (by simp) (by omega)).2⟩

/-- C4: a zero-byte input stream produces zero datagrams, no error
report, and a clean (zero) exit status. -/
theorem c4_empty_stream (destination : List Char) (pause : Nat)
    (verbose usingStdin : Bool)
    (hd : parseDestination destination ≠ none) :
    (runMain destination pause verbose usingStdin []).sent = [] ∧
    (runMain destination pause verbose usingStdin []).exitCode = 0 ∧
    (runMain destination pause verbose usingStdin []).stderrLog = [] := by
  cases hp : parseDestination destination with
  | none => exact absurd hp hd
  | some x => simp [runMain, hp, driverLoop_nil]

theorem c4_empty_stream_witness :
    parseDestination testDestination ≠ none ∧
    (runMain testDestination 5 true true []).sent = [] ∧
    (runMain testDestination 5 true true []).exitCode = 0 ∧
    (runMain testDestination 5 true true []).stderrLog = [] :=
  ⟨by decide,
   (c4_empty_stream testDestination 5 true true (by decide)).1,
   (c4_empty_stream testDestination 5 true true (by decide)).2.1,
   (c4_empty_stream testDestination 5 true true (by decide)).2.2⟩

/-- C2 (amended): a stream of between 1 and RECORD_BYTES-1 bytes produces
zero datagrams and a truncation error report on standard error, and the
process exits with status 0: the truncation branch merely breaks out of
the loop, runs the cleanup, and returns from main() without sys.exit. -/
theorem c2_truncated_stream_amended (destination : List Char) (pause : Nat)
    (verbose usingStdin : Bool) (stream : List UInt8)
    (hd : parseDestination destination ≠ none)
    (h1 : 0 < stream.length) (h2 : stream.length < Z_DATA_TYPE_SCI_L3_V3_SIZE) :
    (runMain destination pause verbose usingStdin stream).sent = [] ∧
    (runMain destination pause verbose usingStdin stream).stderrLog
      = [LogLine.truncationError] ∧
    (runMain destination pause verbose usingStdin stream).exitCode = 0 := by
  cases hp : parseDestination destination with
  | none => exact absurd hp hd
  | some x =>
    have hnil : stream ≠ [] := by
      intro hh
      subst hh
      simp at h1
    simp [runMain, hp, driverLoop_short verbose stream 0 0 hnil h2]

theorem c2_truncated_stream_amended_witness :
    parseDestination testDestination ≠ none ∧
    0 < ([0] : List UInt8).length ∧
    ([0] : List UInt8).length < Z_DATA_TYPE_SCI_L3_V3_SIZE ∧
    (runMain testDestination 0 false false [0]).exitCode = 0 :=
  ⟨by decide, by simp, by norm_num [Z_DATA_TYPE_SCI_L3_V3_SIZE],
   (c2_truncated_stream_amended testDestination 0 false false [0] (by decide)
     (by simp) (by norm_num [Z_DATA_TYPE_SCI_L3_V3_SIZE])).2.2⟩

/-- C2 as stated is false on the code: for the one-byte stream [0x00]
(length within 1..RECORD_BYTES-1) and a valid destination, the program
sends nothing and reports the truncation error, but its exit status is
0, not non-zero -- the truncation branch never calls sys.exit. -/
theorem c2_truncated_stream_counterexample :
    0 < ([0] : List UInt8).length ∧
    ([0] : List UInt8).length < Z_DATA_TYPE_SCI_L3_V3_SIZE ∧
    (runMain testDestination 0 false false [0]).sent = [] ∧
    (runMain testDestination 0 false false [0]).stderrLog
      = [LogLine.truncationError] ∧
    ¬ (runMain testDestination 0 false false [0]).exitCode ≠ 0 := by
  have hloop := driverLoop_short false [0] 0 0 (by simp)
    (by norm_num [Z_DATA_TYPE_SCI_L3_V3_SIZE])
  refine ⟨by simp, by norm_num [Z_DATA_TYPE_SCI_L3_V3_SIZE], ?_, ?_, ?_⟩ <;>
    simp [runMain, parseDestination_testDestination, hloop]

/-- C5: a stream of RECORD_BYTES + K bytes (0 < K < RECORD_BYTES) yields
exactly the 100 frame payloads of the first complete record, in frame
order, then a truncation error report for the remaining K bytes; the 100
sent datagrams stand. -/
theorem c5_partial_second_record (destination : List Char) (pause : Nat)
    (verbose usingStdin : Bool) (stream : List UInt8) (K : Nat)
    (hd : parseDestination destination ≠ none)
    (h : stream.length = Z_DATA_TYPE_SCI_L3_V3_SIZE + K)
    (h1 : 0 < K) (h2 : K < Z_DATA_TYPE_SCI_L3_V3_SIZE) :
    (runMain destination pause verbose usingStdin stream).sent =
      (List.range 100).map (fun f =>
        buildPayload (stream.take Z_DATA_TYPE_SCI_L3_V3_SIZE) f) ∧
    (runMain destination pause verbose usingStdin stream).sent.length = 100 ∧
    (runMain destination pause verbose usingStdin stream).stderrLog
      = [LogLine.truncationError] := by
  cases hp : parseDestination destination with
  | none => exact absurd hp hd
  | some x =>
    have hge : Z_DATA_TYPE_SCI_L3_V3_SIZE ≤ stream.length := by omega
    have hdroplen : (stream.drop Z_DATA_TYPE_SCI_L3_V3_SIZE).length = K := by
      simp only [List.length_drop]
      omega
    have hdropnil : stream.drop Z_DATA_TYPE_SCI_L3_V3_SIZE ≠ [] := by
      intro hh
      rw [hh] at hdroplen
      simp at hdroplen
      omega
    have hdropshort : (stream.drop Z_DATA_TYPE_SCI_L3_V3_SIZE).length
        < Z_DATA_TYPE_SCI_L3_V3_SIZE := by omega
    have hloop := driverLoop_step verbose stream 0 0 hge
    rw [driverLoop_short verbose (stream.drop Z_DATA_TYPE_SCI_L3_V3_SIZE)
      (0 + 1) (0 + N_OF_FRAMES_D3_V0) hdropnil hdropshort] at hloop
    simp only [runMain, hp]
    refine ⟨?_, ?_, ?_⟩ <;> simp [hloop, N_OF_FRAMES_D3_V0]

theorem c5_partial_second_record_witness :
    parseDestination testDestination ≠ none ∧
    (List.replicate (Z_DATA_TYPE_SCI_L3_V3_SIZE + 1) (0 : UInt8)).length
      = Z_DATA_TYPE_SCI_L3_V3_SIZE + 1 ∧
    (runMain testDestination 0 false false
      (List.replicate (Z_DATA_TYPE_SCI_L3_V3_SIZE + 1) (0 : UInt8))).sent.length
      = 100 :=
  ⟨by decide, by simp,
   (c5_partial_second_record testDestination 0 false false
     (List.replicate (Z_DATA_TYPE_SCI_L3_V3_SIZE + 1) (0 : UInt8)) 1
     (by decide) (by simp) (by norm_num)
     (by norm_num [Z_DATA_TYPE_SCI_L3_V3_SIZE])).2.1⟩

/-- C3: a stream of exactly N full records (N*RECORD_BYTES bytes) causes
exactly 100*N datagrams to be sent, in strict record-then-frame order:
the flattened list below places all 100 frame payloads of record k
(frames 0..99 in ascending order) before any payload of record k+1. -/
theorem c3_record_frame_order (destination : List Char) (pause : Nat)
    (verbose usingStdin : Bool) (stream : List UInt8) (N : Nat)
    (hd : parseDestination destination ≠ none)
    (h : stream.length = N * Z_DATA_TYPE_SCI_L3_V3_SIZE) :
    (runMain destination pause verbose usingStdin stream).sent =
      ((List.range N).map (fun k =>
        (List.range 100).map (fun f =>
          buildPayload ((stream.drop (k * Z_DATA_TYPE_SCI_L3_V3_SIZE)).take
            Z_DATA_TYPE_SCI_L3_V3_SIZE) f))).flatten ∧
    (runMain destination pause verbose usingStdin stream).sent.length = 100 * N := by
  cases hp : parseDestination destination with
  | none => exact absurd hp hd
  | some x =>
    have hrun : (runMain destination pause verbose usingStdin stream).sent
        = (driverLoop verbose stream 0 0).sent := by
      simp [runMain, hp]
    obtain ⟨hsent, _⟩ := driverLoop_full verbose N stream 0 0 h
    rw [hrun, hsent]
    constructor
    · simp only [N_OF_FRAMES_D3_V0]
    · rw [List.length_flatten, List.map_map]
      have hrep : (List.range N).map (List.length ∘ fun k =>
          (List.range N_OF_FRAMES_D3_V0).map (fun f =>
            buildPayload ((stream.drop (k * Z_DATA_TYPE_SCI_L3_V3_SIZE)).take
              Z_DATA_TYPE_SCI_L3_V3_SIZE) f))
          = List.replicate N 100 := by
        rw [List.eq_replicate_iff]
        refine ⟨by simp, ?_⟩
        intro b hb
        simp only [List.mem_map, Function.comp_apply] at hb
        obtain ⟨k, _, rfl⟩ := hb
        simp [N_OF_FRAMES_D3_V0]
      rw [hrep, List.sum_replicate, smul_eq_mul]
      omega

theorem c3_record_frame_order_witness :
    parseDestination testDestination ≠ none ∧
    ([] : List UInt8).length = 0 * Z_DATA_TYPE_SCI_L3_V3_SIZE ∧
    (runMain testDestination 0 false false []).sent.length = 100 * 0 :=
  ⟨by decide, by simp,
   (c3_record_frame_order testDestination 0 false false [] 0 (by decide)
     (by simp)).2⟩

/-- A byte position inside one of the trailing 64-byte sub-fields
[channel_start + 256, channel_start + 320) of some 320-byte channel
block of some frame of the record. -/
def TrailingByte (pos : Nat) : Prop :=
  ∃ f c r, f < N_OF_FRAMES_D3_V0 ∧ c < N_OF_PMTS_IN_FRAME ∧
    DATA_ONLY_PER_PMT_SIZE_BYTES ≤ r ∧ r < FULL_PMT_L3_GEN_SIZE_BYTES ∧
    pos = FRAMES_OFFSET + f * FRAME_SPB_2_L3_V0_SIZE_BYTES
      + c * FULL_PMT_L3_GEN_SIZE_BYTES + r

/-- C6: the extraction never reads the trailing 64 bytes of any channel
block: two full records that agree at every position outside the
trailing sub-fields produce identical payloads for every frame. -/
theorem c6_trailing_bytes_ignored (a b : List UInt8)
    (ha : a.length = Z_DATA_TYPE_SCI_L3_V3_SIZE)
    (hb : b.length = Z_DATA_TYPE_SCI_L3_V3_SIZE)
    (hagree : ∀ pos, pos < Z_DATA_TYPE_SCI_L3_V3_SIZE → ¬ TrailingByte pos →
      a.getD pos 0 = b.getD pos 0)
    (f : Nat) (hf : f < N_OF_FRAMES_D3_V0) :
    buildPayload a f = buildPayload b f := by
  simp only [N_OF_FRAMES_D3_V0] at hf
  rw [buildPayload_eq_flatten, buildPayload_eq_flatten]
  refine congrArg List.flatten (List.map_congr_left ?_)
  intro c hc
  rw [List.mem_range] at hc
  apply List.ext_getElem
  · simp only [List.length_take, List.length_drop, ha, hb]
  · intro n h1 h2
    have hn : n < 256 := by
      simp only [List.length_take, List.length_drop, ha] at h1
      omega
    rw [List.getElem_take, List.getElem_drop, List.getElem_take, List.getElem_drop]
    have hlt : 28 + f * 11520 + c * 320 + n < Z_DATA_TYPE_SCI_L3_V3_SIZE := by
      simp only [Z_DATA_TYPE_SCI_L3_V3_SIZE]
      omega
    have hnt : ¬ TrailingByte (28 + f * 11520 + c * 320 + n) := by
      rintro ⟨f', c', r, hf', hc', hr1, hr2, he⟩
      simp only [N_OF_FRAMES_D3_V0, N_OF_PMTS_IN_FRAME, N_OF_PMT_PER_ECASIC,
        N_OF_ECASIC_PER_PDM, DATA_ONLY_PER_PMT_SIZE_BYTES, N_OF_PIXELS_PER_PMT,
        FULL_PMT_L3_GEN_SIZE_BYTES, N_OF_KI_PER_PMT, N_OF_SPARE_PER_PMT,
        FRAMES_OFFSET, FRAME_SPB_2_L3_V0_SIZE_BYTES] at hf' hc' hr1 hr2 he
      omega
    have h1' : 28 + f * 11520 + c * 320 + n < a.length := by omega
    have h2' : 28 + f * 11520 + c * 320 + n < b.length := by omega
    rw [← List.getD_eq_getElem a 0 h1', ← List.getD_eq_getElem b 0 h2']
    exact hagree _ hlt hnt

theorem c6_trailing_bytes_ignored_witness :
    ((List.replicate Z_DATA_TYPE_SCI_L3_V3_SIZE (0 : UInt8)).set 284 1).length
      = Z_DATA_TYPE_SCI_L3_V3_SIZE ∧
    buildPayload (List.replicate Z_DATA_TYPE_SCI_L3_V3_SIZE (0 : UInt8)) 0
      = buildPayload
          ((List.replicate Z_DATA_TYPE_SCI_L3_V3_SIZE (0 : UInt8)).set 284 1) 0 := by
  refine ⟨by simp, ?_⟩
  apply c6_trailing_bytes_ignored
  · simp
  · simp
  · intro pos hlt hnt
    have hne : 284 ≠ pos := by
      intro hh
      exact hnt ⟨0, 0, 256, by decide, by decide, by decide, by decide, by
        rw [← hh]; decide⟩
    have hpa : pos < (List.replicate Z_DATA_TYPE_SCI_L3_V3_SIZE (0 : UInt8)).length := by
      simpa using hlt
    have hpb : pos <
        ((List.replicate Z_DATA_TYPE_SCI_L3_V3_SIZE (0 : UInt8)).set 284 1).length := by
      simpa using hlt
    rw [List.getD_eq_getElem _ _ hpa, List.getD_eq_getElem _ _ hpb,
      List.getElem_set_ne hne]
  · decide

/-- C7: every destination that does not parse as ip:port with an integer
port strictly between 0 and 65536 -- in particular "bad", "1.2.3.4:0"
and "1.2.3.4:99999" -- makes the program print the address error to
standard error and exit with status 1, with no socket created and no
datagram sent (hence before any socket or file I/O). -/
theorem c7_invalid_destination (destination : List Char) (pause : Nat)
    (verbose usingStdin : Bool) (stream : List UInt8)
    (hd : parseDestination destination = none) :
    (runMain destination pause verbose usingStdin stream).exitCode = 1 ∧
    (runMain destination pause verbose usingStdin stream).socketCreated = false ∧
    (runMain destination pause verbose usingStdin stream).sent = [] ∧
    (runMain destination pause verbose usingStdin stream).stderrLog
      = [LogLine.addressError] ∧
    parseDestination badDest = none ∧
    parseDestination zeroPortDest = none ∧
    parseDestination bigPortDest = none := by
  refine ⟨?_, ?_, ?_, ?_, by decide, by decide, by decide⟩ <;>
    simp [runMain, hd]

theorem c7_invalid_destination_witness :
    parseDestination badDest = none ∧
    (runMain badDest 0 false false []).exitCode = 1 ∧
    (runMain badDest 0 false false []).socketCreated = false :=
  ⟨by decide,
   (c7_invalid_destination badDest 0 false false [] (by decide)).1,
   (c7_invalid_destination badDest 0 false false [] (by decide)).2.1⟩

/-- C8: the program never emits a zero-length datagram: every payload
passed to the UDP send call has length exactly 9216, hence strictly
positive length. -/
theorem c8_no_empty_datagram (destination : List Char) (pause : Nat)
    (verbose usingStdin : Bool) (stream : List UInt8) (p : List UInt8)
    (hp : p ∈ (runMain destination pause verbose usingStdin stream).sent) :
    p.length = 9216 ∧ 0 < p.length := by
  cases hq : parseDestination destination with
  | none =>
    rw [show (runMain destination pause verbose usingStdin stream).sent = [] by
      simp [runMain, hq]] at hp
    simp at hp
  | some x =>
    have hmem : p ∈ (driverLoop verbose stream 0 0).sent := by
      simpa [runMain, hq] using hp
    have hlen := driverLoop_sent_length_aux verbose stream.length stream
      (Nat.le_refl _) 0 0 p hmem
    exact ⟨hlen, by omega⟩

theorem c8_no_empty_datagram_witness :
    buildPayload (List.replicate Z_DATA_TYPE_SCI_L3_V3_SIZE (0 : UInt8)) 0
      ∈ (runMain testDestination 0 false false
          (List.replicate Z_DATA_TYPE_SCI_L3_V3_SIZE (0 : UInt8))).sent ∧
    0 < (buildPayload (List.replicate Z_DATA_TYPE_SCI_L3_V3_SIZE (0 : UInt8)) 0).length := by
  have hstep := driverLoop_step false
    (List.replicate Z_DATA_TYPE_SCI_L3_V3_SIZE (0 : UInt8)) 0 0 (by simp)
  rw [List.drop_replicate, Nat.sub_self, List.replicate_zero, driverLoop_nil,
    List.take_replicate, Nat.min_self] at hstep
  have hmem : buildPayload (List.replicate Z_DATA_TYPE_SCI_L3_V3_SIZE (0 : UInt8)) 0
      ∈ (runMain testDestination 0 false false
          (List.replicate Z_DATA_TYPE_SCI_L3_V3_SIZE (0 : UInt8))).sent := by
    simp only [runMain, parseDestination_testDestination, hstep]
    simp only [List.append_nil, List.mem_map, List.mem_range]
    exact ⟨0, by norm_num [N_OF_FRAMES_D3_V0], rfl⟩
  exact ⟨hmem,
    (c8_no_empty_datagram testDestination 0 false false _ _ hmem).2⟩

/-- C9: the verbose flag (-v, --verbose) does not change data semantics: for the
same destination, pause and input stream, the sent datagram sequence,
the exit status and the stderr reports are identical with and without
verbose; verbose only adds progress lines. -/
theorem c9_verbose_data_independent (destination : List Char) (pause : Nat)
    (usingStdin : Bool) (stream : List UInt8) :
    (runMain destination pause true usingStdin stream).sent
      = (runMain destination pause false usingStdin stream).sent ∧
    (runMain destination pause true usingStdin stream).exitCode
      = (runMain destination pause false usingStdin stream).exitCode ∧
    (runMain destination pause true usingStdin stream).stderrLog
      = (runMain destination pause false usingStdin stream).stderrLog := by
  cases hp : parseDestination destination with
  | none => simp [runMain, hp]
  | some x =>
    obtain ⟨hsent, htr⟩ := driverLoop_data_eq true false stream 0 0 0 0
    simp [runMain, hp, hsent, htr]

/-- C10: every byte index used to build a payload lies within the record
buffer: for every f < 100 and c < 36 the accessed range ends at
FRAMES_OFFSET + f*11520 + c*320 + 256 <= RECORD_BYTES, the largest such
end being 1,151,964, so every 256-byte slice of a full record is
complete. -/
theorem c10_offsets_in_bounds (record_data : List UInt8) (f c : Nat)
    (hrec : record_data.length = Z_DATA_TYPE_SCI_L3_V3_SIZE)
    (hf : f < N_OF_FRAMES_D3_V0) (hc : c < N_OF_PMTS_IN_FRAME) :
    FRAMES_OFFSET + f * FRAME_SPB_2_L3_V0_SIZE_BYTES
        + c * FULL_PMT_L3_GEN_SIZE_BYTES + DATA_ONLY_PER_PMT_SIZE_BYTES
      ≤ Z_DATA_TYPE_SCI_L3_V3_SIZE ∧
    FRAMES_OFFSET + 99 * FRAME_SPB_2_L3_V0_SIZE_BYTES
        + 35 * FULL_PMT_L3_GEN_SIZE_BYTES + DATA_ONLY_PER_PMT_SIZE_BYTES
      = 1151964 ∧
    ((record_data.drop (FRAMES_OFFSET + f * FRAME_SPB_2_L3_V0_SIZE_BYTES
        + c * FULL_PMT_L3_GEN_SIZE_BYTES)).take DATA_ONLY_PER_PMT_SIZE_BYTES).length
      = DATA_ONLY_PER_PMT_SIZE_BYTES := by
  simp only [FRAMES_OFFSET, FRAME_SPB_2_L3_V0_SIZE_BYTES, FULL_PMT_L3_GEN_SIZE_BYTES,
    DATA_ONLY_PER_PMT_SIZE_BYTES, Z_DATA_TYPE_SCI_L3_V3_SIZE, N_OF_FRAMES_D3_V0,
    N_OF_PMTS_IN_FRAME, N_OF_PMT_PER_ECASIC, N_OF_ECASIC_PER_PDM, N_OF_PIXELS_PER_PMT,
    N_OF_KI_PER_PMT, N_OF_SPARE_PER_PMT, List.length_take, List.length_drop] at *
  refine ⟨by omega, by norm_num, by omega⟩

theorem c10_offsets_in_bounds_witness :
    (0 : Nat) < N_OF_FRAMES_D3_V0 ∧ (0 : Nat) < N_OF_PMTS_IN_FRAME ∧
    FRAMES_OFFSET + 0 * FRAME_SPB_2_L3_V0_SIZE_BYTES
        + 0 * FULL_PMT_L3_GEN_SIZE_BYTES + DATA_ONLY_PER_PMT_SIZE_BYTES
      ≤ Z_DATA_TYPE_SCI_L3_V3_SIZE :=
  ⟨by decide, by decide,
   (c10_offsets_in_bounds (List.replicate Z_DATA_TYPE_SCI_L3_V3_SIZE 0) 0 0
     (by simp) (by decide) (by decide)).1⟩
